import Mathlib

/-!
Verification of the docker-monitor-manager monitoring core against its
natural-language specification.

The development shallowly embeds the Python sources under
`src/docker_monitor/` into Lean:

* `docker_utils.calculate_cpu_percent` / `calculate_ram_percent` /
  `get_container_stats` are embedded over a small model of Python values
  (`PyVal`) and Python exceptions (`PyExc`), with fallible evaluation in
  `Except PyExc`;
* the auto-scaler (`scale_container`, `delete_clones`) and the scaling pass
  of `monitor_thread` are embedded as pure functions from container lists to
  lists of runtime side effects (`ScaleAction`);
* `observer.Subject.notifyObservers` is embedded as a pure transformer on the
  observer list, with the per-observer `try/except` embedded as a function
  returning the failed observer instead of propagating;
* `worker.run_in_thread` is embedded as a branch-faithful outcome function
  plus a labelled transition system for the pending-permit count;
* `docker_controller.DockerDataController` update/get/batch methods are
  embedded twice: at the value level, and (for the aliasing claim) over an
  explicit heap of list objects so that `list.copy()` versus reference
  assignment is observable;
* the debounce logic of `docker_events_listener` is embedded as a fold over
  timestamped events.

Numeric Python values are modelled as exact rationals.
-/

/-- Python exceptions that the embedded fragments can raise or catch. -/
inductive PyExc where
  | keyError
  | typeError
  | attributeError
  | zeroDivisionError
  deriving DecidableEq, Repr

/-- Model of the Python values flowing through the stats calculators:
numbers (ints and floats, modelled as exact rationals), strings, `None`
and string-keyed dicts. -/
inductive PyVal where
  | num (q : ℚ)
  | str (s : String)
  | pynone
  | dict (entries : List (String × PyVal))
  deriving Repr

/-- Lookup in a dict's entry list (first binding wins, as in a Python dict
built from distinct keys). -/
def dictGet : List (String × PyVal) → String → Option PyVal
  | [], _ => none
  | (k, v) :: rest, key => if k == key then some v else dictGet rest key

/-- Python subscript `v[key]`: `KeyError` when a dict lacks the key,
`TypeError` when the receiver is not a dict. -/
def pySubscript (v : PyVal) (key : String) : Except PyExc PyVal :=
  match v with
  | .dict es =>
    match dictGet es key with
    | some x => .ok x
    | none => .error .keyError
  | _ => .error .typeError

/-- Python `v.get(key, default)`: only dicts have a `get` attribute, any
other receiver raises `AttributeError`. -/
def pyGetMethod (v : PyVal) (key : String) (default : PyVal) : Except PyExc PyVal :=
  match v with
  | .dict es => .ok ((dictGet es key).getD default)
  | _ => .error .attributeError

/-- Coerce a Python value to a number for arithmetic or comparison;
non-numeric operands raise `TypeError` as in Python 3. -/
def asNum : PyVal → Except PyExc ℚ
  | .num q => .ok q
  | _ => .error .typeError

/-- Python true division: `TypeError` on non-numeric operands,
`ZeroDivisionError` on a zero denominator. -/
def pyDiv (a b : PyVal) : Except PyExc ℚ :=
  match a, b with
  | .num x, .num y => if y = 0 then .error .zeroDivisionError else .ok (x / y)
  | _, _ => .error .typeError

/-- Body of the `try:` block of `docker_utils.calculate_cpu_percent`
(src/docker_monitor/utils/docker_utils.py:65-87). `online_cpus` is fetched
with default 1 and only coerced to a number inside the positive-delta
branch, exactly where the Python code first uses it arithmetically. -/
def cpu_body (stats : PyVal) : Except PyExc ℚ := do
  let cpu_current ← asNum (← pySubscript (← pySubscript (← pySubscript stats "cpu_stats") "cpu_usage") "total_usage")
  let cpu_prev ← asNum (← pySubscript (← pySubscript (← pySubscript stats "precpu_stats") "cpu_usage") "total_usage")
  let system_current ← asNum (← pySubscript (← pySubscript stats "cpu_stats") "system_cpu_usage")
  let system_prev ← asNum (← pySubscript (← pySubscript stats "precpu_stats") "system_cpu_usage")
  let cpu_delta := cpu_current - cpu_prev
  let system_delta := system_current - system_prev
  let num_cpus ← pyGetMethod (← pySubscript stats "cpu_stats") "online_cpus" (.num 1)
  if 0 < system_delta ∧ 0 < cpu_delta then
    let n ← asNum num_cpus
    pure ((cpu_delta / system_delta) * n * 100)
  else
    pure 0

/-- `docker_utils.calculate_cpu_percent`: the body wrapped in
`except (KeyError, TypeError): return 0.0`. -/
def calculate_cpu_percent (stats : PyVal) : Except PyExc ℚ :=
  match cpu_body stats with
  | .ok q => .ok q
  | .error .keyError => .ok 0
  | .error .typeError => .ok 0
  | .error e => .error e

/-- Body of the `try:` block of `docker_utils.calculate_ram_percent`
(src/docker_monitor/utils/docker_utils.py:90-98):
`usage` defaults to 0, `limit` defaults to 1, result is `usage/limit*100`. -/
def ram_body (stats : PyVal) : Except PyExc ℚ := do
  let ms ← pySubscript stats "memory_stats"
  let mem_usage ← pyGetMethod ms "usage" (.num 0)
  let mem_limit ← pyGetMethod ms "limit" (.num 1)
  let q ← pyDiv mem_usage mem_limit
  pure (q * 100)

/-- `docker_utils.calculate_ram_percent`: the body wrapped in
`except (KeyError, TypeError): return 0.0`. Any other exception
(notably `ZeroDivisionError`) propagates to the caller. -/
def calculate_ram_percent (stats : PyVal) : Except PyExc ℚ :=
  match ram_body stats with
  | .ok q => .ok q
  | .error .keyError => .ok 0
  | .error .typeError => .ok 0
  | .error e => .error e

/-- Outcome of `container.stats(stream=False)` for one container handle. -/
inductive StatsCall where
  | ok (v : PyVal)
  | notFound
  | failed
  deriving Repr

/-- The part of a docker SDK container handle that `get_container_stats`
reads: `short_id`, `name`, `status` and the result of its live stats call. -/
structure ContainerHandle where
  short_id : String
  name : String
  status : String
  statsCall : StatsCall

/-- The normalized per-container snapshot dict produced by
`get_container_stats` (keys id/name/status/cpu/ram, cpu and ram already
formatted as strings). -/
structure Snapshot where
  id : String
  name : String
  status : String
  cpu : String
  ram : String
  deriving DecidableEq, Repr

/-- Model of CPython's `f"{q:.2f}"` on the exact rational value: round to
the nearest hundredth and print with two decimal digits. -/
def format2f (q : ℚ) : String :=
  let n : Int := round (q * 100)
  let sgn := if n < 0 then "-" else ""
  let m : Nat := n.natAbs
  let frac := m % 100
  sgn ++ toString (m / 100) ++ "." ++ (if frac < 10 then "0" ++ toString frac else toString frac)

/-- `docker_utils.get_container_stats`
(src/docker_monitor/utils/docker_utils.py:101-160), returning the snapshot
(or `none` for the `NotFound` path, which the callers filter out) paired
with a flag recording whether a live stats call was issued. A calculator
error that escapes `calculate_*_percent` reaches the outer
`except Exception` and degrades to the zeroed snapshot. -/
def get_container_stats (c : Option ContainerHandle) : Option Snapshot × Bool :=
  match c with
  | Option.none =>
    (some { id := "unknown", name := "unknown", status := "error", cpu := "0.00", ram := "0.00" }, false)
  | some h =>
    if h.status ≠ "running" then
      (some { id := h.short_id, name := h.name, status := h.status, cpu := "0.00", ram := "0.00" }, false)
    else
      match h.statsCall with
      | .notFound => (Option.none, true)
      | .failed =>
        (some { id := h.short_id, name := h.name, status := h.status, cpu := "0.00", ram := "0.00" }, true)
      | .ok stats =>
        match calculate_cpu_percent stats, calculate_ram_percent stats with
        | .ok cpu, .ok ram =>
          (some { id := h.short_id, name := h.name, status := h.status,
                  cpu := format2f cpu, ram := format2f ram }, true)
        | _, _ =>
          (some { id := h.short_id, name := h.name, status := h.status, cpu := "0.00", ram := "0.00" }, true)

/-- C5: a well-formed stats dict with both memory fields numeric and a
nonzero limit yields `usage/limit*100`. -/
theorem calculate_ram_percent_formula (usage limit : ℚ) (rest : List (String × PyVal))
    (hl : limit ≠ 0) :
    calculate_ram_percent
      (.dict (("memory_stats",
        .dict [("usage", .num usage), ("limit", .num limit)]) :: rest))
      = .ok (usage / limit * 100) := by
  simp [calculate_ram_percent, ram_body, pySubscript, pyGetMethod, pyDiv, dictGet,
    Bind.bind, Except.bind, Functor.map, Except.map, Pure.pure, Except.pure, hl]

/-- C5 failing input: on `{'memory_stats': {'usage': 1, 'limit': 0}}` the
function raises `ZeroDivisionError` — the `except (KeyError, TypeError)`
clause does not catch it, so `calculate_ram_percent` is not total. -/
theorem calculate_ram_percent_div_zero :
    calculate_ram_percent
      (.dict [("memory_stats", .dict [("usage", .num 1), ("limit", .num 0)])])
      = .error .zeroDivisionError := by
  rfl

/-- C9: for every container handle whose status is not `running`,
sampling returns the zeroed snapshot carrying the actual status, and no
live stats call is issued. -/
theorem get_container_stats_non_running (h : ContainerHandle) (hs : h.status ≠ "running") :
    get_container_stats (some h)
      = (some { id := h.short_id, name := h.name, status := h.status,
                cpu := "0.00", ram := "0.00" }, false) := by
  simp [get_container_stats, hs]

/-- C9 witness: a concrete exited container. -/
theorem get_container_stats_non_running_witness :
    get_container_stats (some { short_id := "abc123def456", name := "web",
                                status := "exited", statsCall := .failed })
      = (some { id := "abc123def456", name := "web", status := "exited",
                cpu := "0.00", ram := "0.00" }, false) :=
  get_container_stats_non_running
    { short_id := "abc123def456", name := "web", status := "exited", statsCall := .failed }
    (by decide)

/-! ## Auto-scaler and the scaling pass of the polling loop -/

/-- Global limits from src/docker_monitor/utils/docker_utils.py:12-14. -/
def CPU_LIMIT : ℚ := 50

/-- RAM limit (percent). -/
def RAM_LIMIT : ℚ := 5

/-- Maximum clones per container. -/
def CLONE_NUM : Nat := 2

/-- The part of a docker container object the scaler reads: its name,
status and label dict. -/
structure MCont where
  name : String
  status : String
  labels : List (String × String)
  deriving DecidableEq, Repr

/-- First binding for a key in a label list (Python dict lookup). -/
def lookupLabel (ls : List (String × String)) (k : String) : Option String :=
  (ls.find? (fun p => p.1 == k)).map (·.2)

/-- `docker_utils.is_clone_container`: the `dmm.is_clone` label equals
`'true'` and a `dmm.parent_container` label is present. -/
def is_clone_container (c : MCont) : Bool :=
  lookupLabel c.labels "dmm.is_clone" == some "true"
    && (lookupLabel c.labels "dmm.parent_container").isSome

/-- `docker_utils.get_parent_container_name`: the `dmm.parent_container`
label, defaulting to the empty string. -/
def get_parent_container_name (c : MCont) : String :=
  (lookupLabel c.labels "dmm.parent_container").getD ""

/-- Runtime side effects the scaler requests from the docker client. -/
inductive ScaleAction where
  | pause (name : String)
  | deleteClone (name : String)
  | createClone (parent : String)
  deriving DecidableEq, Repr

/-- The clones of `c` inside `all`: containers carrying the clone label with
`c` as parent (the filter of `docker_utils.delete_clones` and
`scale_container`). -/
def existing_clones (c : MCont) (all : List MCont) : List MCont :=
  all.filter (fun x => is_clone_container x && get_parent_container_name x == c.name)

/-- `docker_utils.delete_clones`: stop-and-remove every existing clone of
`c` (each deletion is best-effort in the source; the action list records
the requested removals). -/
def delete_clones (c : MCont) (all : List MCont) : List ScaleAction :=
  (existing_clones c all).map (fun cl => ScaleAction.deleteClone cl.name)

/-- `docker_utils.scale_container`
(src/docker_monitor/utils/docker_utils.py:254-342) as the list of runtime
actions it performs: at capacity it pauses the original (best-effort) and
deletes all clones; otherwise, if auto-scaling is enabled, it creates
exactly one labelled clone (the `clones_to_create ≤ 0` guard mirrors
`max(0, CLONE_NUM - len(existing_clones))`). -/
def scale_container (autoScaleEnabled : Bool) (c : MCont) (all : List MCont) : List ScaleAction :=
  if CLONE_NUM ≤ (existing_clones c all).length then
    ScaleAction.pause c.name :: delete_clones c all
  else if !autoScaleEnabled then
    []
  else
    let clones_to_create := CLONE_NUM - (existing_clones c all).length
    if clones_to_create = 0 then []
    else [ScaleAction.createClone c.name]

/-- The parsed cpu/ram percentages of one snapshot, as the monitor loop
reads them back via `float(stats.get('cpu'))` / `float(stats.get('ram'))`. -/
structure MStats where
  cpu : ℚ
  ram : ℚ
  deriving DecidableEq, Repr

/-- The overload filter of `monitor_thread`
(src/docker_monitor/utils/docker_utils.py:374-386): keep pairs with a
snapshot present (and parseable — `none` covers both the missing-snapshot
and the unparseable-floats `continue`), a `running` status, not themselves
clones, and cpu or ram strictly above its limit. -/
def running_overloaded (pairs : List (MCont × Option MStats)) : List (MCont × Option MStats) :=
  pairs.filter (fun p =>
    p.2.isSome && p.1.status == "running" && !is_clone_container p.1 &&
      (match p.2 with
       | some s => decide (CPU_LIMIT < s.cpu) || decide (RAM_LIMIT < s.ram)
       | none => false))

/-- The auto-scaling pass of one `monitor_thread` cycle
(src/docker_monitor/utils/docker_utils.py:365-417): when the global enable
flag is false the whole pass is skipped; otherwise `scale_container` runs
on every overloaded running non-clone container against the full container
list. The in-loop re-check of the flag and the `CONFIG_VERSION` guard are
identities here because the configuration is constant within the modelled
cycle. -/
def monitorScalingActions (autoScaleEnabled : Bool)
    (pairs : List (MCont × Option MStats)) : List ScaleAction :=
  if !autoScaleEnabled then []
  else
    let all := pairs.map Prod.fst
    (running_overloaded pairs).flatMap (fun p => scale_container autoScaleEnabled p.1 all)

/-- A parent at clone capacity that is not overloaded (cpu ≤ CPU_LIMIT and
ram ≤ RAM_LIMIT). -/
def c1_parent : MCont := { name := "web", status := "running", labels := [] }

/-- A first clone of `c1_parent`. -/
def c1_clone_a : MCont :=
  { name := "web-clone-aaaaaaaa", status := "running",
    labels := [("dmm.is_clone", "true"), ("dmm.parent_container", "web")] }

/-- A second clone of `c1_parent`. -/
def c1_clone_b : MCont :=
  { name := "web-clone-bbbbbbbb", status := "running",
    labels := [("dmm.is_clone", "true"), ("dmm.parent_container", "web")] }

/-- One polling cycle's container/stats pairs: the parent idles at
cpu 10 ≤ 50 and ram 1 ≤ 5 while holding `CLONE_NUM` clones. -/
def c1_pairs : List (MCont × Option MStats) :=
  [(c1_parent, some { cpu := 10, ram := 1 }),
   (c1_clone_a, some { cpu := 0, ram := 0 }),
   (c1_clone_b, some { cpu := 0, ram := 0 })]

/-- C1 counterexample: with auto-scaling enabled, a running non-clone
parent holding `CLONE_NUM` clones whose cpu and ram are at or below their
limits is never handed to the scaler during the polling cycle — the cycle
issues no action at all, in particular no pause and no clone deletion,
contradicting the claim that the at-capacity branch fires for it regardless
of overload state. -/
theorem monitor_cycle_at_capacity_not_overloaded_untouched :
    CLONE_NUM ≤ (existing_clones c1_parent (c1_pairs.map Prod.fst)).length
    ∧ c1_parent.status = "running"
    ∧ is_clone_container c1_parent = false
    ∧ (10 : ℚ) ≤ CPU_LIMIT ∧ (1 : ℚ) ≤ RAM_LIMIT
    ∧ monitorScalingActions true c1_pairs = [] := by
  decide

/-- C1 amended: during a polling cycle with auto-scaling enabled, every
container that the cycle hands to the scaler — i.e. every running,
non-clone container whose snapshot parses and shows cpu > CPU_LIMIT or
ram > RAM_LIMIT — and whose existing-clone count is ≥ CLONE_NUM is paused,
and every one of its existing clones is deleted, regardless of which limit
triggered the overload. -/
theorem monitor_cycle_at_capacity_overloaded_pauses (pairs : List (MCont × Option MStats))
    (c : MCont) (s : MStats) (hmem : (c, some s) ∈ pairs)
    (hrun : c.status = "running") (hclone : is_clone_container c = false)
    (hover : CPU_LIMIT < s.cpu ∨ RAM_LIMIT < s.ram)
    (hcap : CLONE_NUM ≤ (existing_clones c (pairs.map Prod.fst)).length) :
    ScaleAction.pause c.name ∈ monitorScalingActions true pairs
    ∧ ∀ cl ∈ existing_clones c (pairs.map Prod.fst),
        ScaleAction.deleteClone cl.name ∈ monitorScalingActions true pairs := by
  have hsel : (c, some s) ∈ running_overloaded pairs := by
    refine List.mem_filter.2 ⟨hmem, ?_⟩
    simp only [Option.isSome_some, Bool.true_and, Bool.and_eq_true, beq_iff_eq,
      Bool.not_eq_true', Bool.or_eq_true, decide_eq_true_eq]
    exact ⟨⟨hrun, hclone⟩, hover⟩
  have hscale : scale_container true c (pairs.map Prod.fst)
      = ScaleAction.pause c.name :: delete_clones c (pairs.map Prod.fst) := by
    simp [scale_container, hcap]
  constructor
  · simp only [monitorScalingActions, Bool.not_true, Bool.false_eq_true, if_false, List.mem_flatMap]
    exact ⟨(c, some s), hsel, by simp [hscale]⟩
  · intro cl hcl
    simp only [monitorScalingActions, Bool.not_true, Bool.false_eq_true, if_false, List.mem_flatMap]
    refine ⟨(c, some s), hsel, ?_⟩
    rw [hscale]
    exact List.mem_cons_of_mem _ (List.mem_map_of_mem _ hcl)

/-- C1 amended witness: the same family as the counterexample, but with the
parent overloaded on cpu (80 > 50): the cycle pauses it and deletes both
clones. -/
theorem monitor_cycle_at_capacity_overloaded_pauses_witness :
    (ScaleAction.pause "web" ∈ monitorScalingActions true
        [(c1_parent, some { cpu := 80, ram := 1 }),
         (c1_clone_a, some { cpu := 0, ram := 0 }),
         (c1_clone_b, some { cpu := 0, ram := 0 })]
      ∧ ∀ cl ∈ existing_clones c1_parent
          ([(c1_parent, some ({ cpu := 80, ram := 1 } : MStats)),
            (c1_clone_a, some { cpu := 0, ram := 0 }),
            (c1_clone_b, some { cpu := 0, ram := 0 })].map Prod.fst),
          ScaleAction.deleteClone cl.name ∈ monitorScalingActions true
            [(c1_parent, some { cpu := 80, ram := 1 }),
             (c1_clone_a, some { cpu := 0, ram := 0 }),
             (c1_clone_b, some { cpu := 0, ram := 0 })]) :=
  monitor_cycle_at_capacity_overloaded_pauses _ c1_parent { cpu := 80, ram := 1 }
    (by simp) (by decide) (by decide) (Or.inl (by norm_num [CPU_LIMIT])) (by decide)

/-- The C2 cycle: the parent is overloaded (cpu 80 > 50) and at capacity,
so it would be scaled were the flag enabled. -/
def c2_pairs : List (MCont × Option MStats) :=
  [(c1_parent, some { cpu := 80, ram := 1 }),
   (c1_clone_a, some { cpu := 0, ram := 0 }),
   (c1_clone_b, some { cpu := 0, ram := 0 })]

/-- C2 counterexample: with the global auto-scale flag false, a polling
cycle containing a running non-clone parent with `CLONE_NUM` existing
clones (even an overloaded one) performs no action at all — the at-capacity
pause/cleanup branch does not execute, contradicting the claim that it
still applies when the flag is disabled. -/
theorem monitor_cycle_disabled_no_cleanup :
    CLONE_NUM ≤ (existing_clones c1_parent (c2_pairs.map Prod.fst)).length
    ∧ c1_parent.status = "running"
    ∧ is_clone_container c1_parent = false
    ∧ monitorScalingActions false c2_pairs = [] := by
  decide

/-- C2 amended: when the global auto-scale flag is false the polling
cycle's scaling pass is skipped wholesale, so no container is paused and no
clone is deleted or created; the at-capacity branch running despite the
disabled flag holds only of `scale_container` itself, which — when invoked
directly on a parent at capacity — pauses it and deletes all its clones,
while on a parent below capacity the clone-creation branch is a logged
no-op: the direct call performs no action at all. -/
theorem monitor_cycle_disabled_skips_all (pairs : List (MCont × Option MStats))
    (c : MCont) (all : List MCont) (cb : MCont) (allb : List MCont)
    (hcap : CLONE_NUM ≤ (existing_clones c all).length)
    (hbelow : (existing_clones cb allb).length < CLONE_NUM) :
    monitorScalingActions false pairs = []
    ∧ scale_container false c all = ScaleAction.pause c.name :: delete_clones c all
    ∧ scale_container false cb allb = [] := by
  refine ⟨rfl, by simp [scale_container, hcap], ?_⟩
  rw [scale_container, if_neg (not_le.2 hbelow)]
  rfl

/-- C2 amended witness: concrete cycle, concrete at-capacity direct
invocation, and a concrete below-capacity direct invocation (no clones in
the container list). -/
theorem monitor_cycle_disabled_skips_all_witness :
    monitorScalingActions false c2_pairs = []
    ∧ scale_container false c1_parent (c2_pairs.map Prod.fst)
        = ScaleAction.pause c1_parent.name :: delete_clones c1_parent (c2_pairs.map Prod.fst)
    ∧ scale_container false c1_parent [] = [] :=
  monitor_cycle_disabled_skips_all c2_pairs c1_parent (c2_pairs.map Prod.fst)
    c1_parent [] (by decide) (by decide)

/-! ## Observer pattern: `Subject.notifyObservers` -/

/-- One observer's `update` call during pass `k`: the subject's
`try/except` around `observer.update` is embedded by returning the failed
observer instead of letting the exception propagate
(src/docker_monitor/utils/observer.py:88-94). `fails o k = true` means
observer `o` raises on notification pass `k`; observers are identified by
`Nat` ids as the source identifies them by object identity. -/
def notify_observer (fails : Nat → Nat → Bool) (k : Nat) (o : Nat) : Option Nat :=
  if fails o k then some o else none

/-- `observer.Subject.notifyObservers`
(src/docker_monitor/utils/observer.py:67-106) for pass `k`: every observer
in the snapshot of the list receives the notification (first component);
the observers whose `update` raised are collected and removed from the
list after the pass (second component). -/
def notifyObservers (fails : Nat → Nat → Bool) (k : Nat) (observers : List Nat) :
    List Nat × List Nat :=
  let delivered := observers
  let failed_observers := observers.filterMap (notify_observer fails k)
  (delivered, observers.filter (fun o => !(failed_observers.contains o)))

/-- A sequence of notification passes `ks` starting from observer list
`observers`: returns the delivered-to list of every pass and the final
observer list. -/
def runPasses (fails : Nat → Nat → Bool) (observers : List Nat) :
    List Nat → List (List Nat) × List Nat
  | [] => ([], observers)
  | k :: rest =>
    let p := notifyObservers fails k observers
    let r := runPasses fails p.2 rest
    (p.1 :: r.1, r.2)

/-- The observer list only shrinks across a pass. -/
theorem mem_notifyObservers_snd {fails k observers o}
    (h : o ∈ (notifyObservers fails k observers).2) : o ∈ observers :=
  List.mem_of_mem_filter h

/-- An observer absent from the list receives nothing in any later pass. -/
theorem not_mem_runPasses_delivered (fails : Nat → Nat → Bool) (o : Nat) :
    ∀ (ks : List Nat) (observers : List Nat), o ∉ observers →
      ∀ d ∈ (runPasses fails observers ks).1, o ∉ d := by
  intro ks
  induction ks with
  | nil => intro observers _ d hd; simp [runPasses] at hd
  | cons k rest ih =>
    intro observers hno d hd
    simp only [runPasses, List.mem_cons] at hd
    rcases hd with rfl | hd
    · exact hno
    · exact ih _ (fun hmem => hno (mem_notifyObservers_snd hmem)) d hd

/-- An observer that never raises survives every pass. -/
theorem mem_notifyObservers_snd_of_not_fails {fails : Nat → Nat → Bool} {k : Nat}
    {observers : List Nat} {o : Nat} (ho : o ∈ observers) (hg : fails o k = false) :
    o ∈ (notifyObservers fails k observers).2 := by
  have hnot : o ∉ observers.filterMap (notify_observer fails k) := by
    intro hcon
    obtain ⟨a, _, ha⟩ := List.mem_filterMap.1 hcon
    by_cases hfa : fails a k = true
    · rw [notify_observer, if_pos hfa, Option.some_inj] at ha
      exact absurd (ha ▸ hfa) (by simp [hg])
    · rw [notify_observer, if_neg hfa] at ha
      exact Option.noConfusion ha
  refine List.mem_filter.2 ⟨ho, ?_⟩
  simp only [Bool.not_eq_true']
  exact Bool.eq_false_iff.2 (fun hc => hnot (List.elem_iff.1 hc))

/-- An observer that never raises receives every notification of a run and
remains registered at its end. -/
theorem mem_runPasses_delivered_of_never_fails (fails : Nat → Nat → Bool) (o : Nat)
    (hg : ∀ j, fails o j = false) :
    ∀ (ks : List Nat) (observers : List Nat), o ∈ observers →
      (∀ d ∈ (runPasses fails observers ks).1, o ∈ d)
        ∧ o ∈ (runPasses fails observers ks).2 := by
  intro ks
  induction ks with
  | nil => intro observers ho; exact ⟨by simp [runPasses], by simpa [runPasses] using ho⟩
  | cons k rest ih =>
    intro observers ho
    have hsurv := mem_notifyObservers_snd_of_not_fails ho (hg k)
    obtain ⟨h1, h2⟩ := ih _ hsurv
    refine ⟨?_, by simpa [runPasses] using h2⟩
    intro d hd
    simp only [runPasses, List.mem_cons] at hd
    rcases hd with rfl | hd
    · exact ho
    · exact h1 d hd

/-- C3: during a notification pass an observer `o` whose `update` raises is
still invoked for the current pass (the exception is caught inside
`notifyObservers`, which is total), is removed from the observer list once
the pass completes, and receives no notification of any later pass; an
observer `o2` whose `update` never raises receives the current notification,
stays registered, and receives every subsequent notification. -/
theorem notifyObservers_failure_isolation (fails : Nat → Nat → Bool)
    (s : List Nat) (o o2 : Nat) (k : Nat) (ks : List Nat)
    (ho : o ∈ s) (ho2 : o2 ∈ s) (hf : fails o k = true)
    (hg : ∀ j, fails o2 j = false) :
    o ∈ (notifyObservers fails k s).1
    ∧ o2 ∈ (notifyObservers fails k s).1
    ∧ o ∉ (notifyObservers fails k s).2
    ∧ o2 ∈ (notifyObservers fails k s).2
    ∧ (∀ d ∈ (runPasses fails (notifyObservers fails k s).2 ks).1, o ∉ d)
    ∧ (∀ d ∈ (runPasses fails (notifyObservers fails k s).2 ks).1, o2 ∈ d) := by
  have hrem : o ∉ (notifyObservers fails k s).2 := by
    intro hcon
    have hp := (List.mem_filter.1 hcon).2
    rw [Bool.not_eq_true'] at hp
    have hmem : o ∈ s.filterMap (notify_observer fails k) :=
      List.mem_filterMap.2 ⟨o, ho, by rw [notify_observer, if_pos hf]⟩
    have hc : (s.filterMap (notify_observer fails k)).contains o = true := by
      simpa using hmem
    rw [hc] at hp
    exact Bool.noConfusion hp
  have hkeep : o2 ∈ (notifyObservers fails k s).2 :=
    mem_notifyObservers_snd_of_not_fails ho2 (hg k)
  exact ⟨ho, ho2, hrem, hkeep,
    not_mem_runPasses_delivered fails o ks _ hrem,
    fun d hd => ((mem_runPasses_delivered_of_never_fails fails o2 hg ks _ hkeep).1 d hd)⟩

/-- C3 witness: observers 1 and 2, observer 1 raising on every pass,
across the pass `k = 0` followed by passes 1 and 2. -/
theorem notifyObservers_failure_isolation_witness :
    1 ∈ (notifyObservers (fun a _ => a == 1) 0 [1, 2]).1
    ∧ 2 ∈ (notifyObservers (fun a _ => a == 1) 0 [1, 2]).1
    ∧ 1 ∉ (notifyObservers (fun a _ => a == 1) 0 [1, 2]).2
    ∧ 2 ∈ (notifyObservers (fun a _ => a == 1) 0 [1, 2]).2
    ∧ (∀ d ∈ (runPasses (fun a _ => a == 1)
          (notifyObservers (fun a _ => a == 1) 0 [1, 2]).2 [1, 2]).1, 1 ∉ d)
    ∧ (∀ d ∈ (runPasses (fun a _ => a == 1)
          (notifyObservers (fun a _ => a == 1) 0 [1, 2]).2 [1, 2]).1, 2 ∈ d) :=
  notifyObservers_failure_isolation (fun a _ => a == 1) [1, 2] 1 2 0 [1, 2]
    (by decide) (by decide) (by decide) (fun j => rfl)

/-! ## Bounded task runner: `worker.run_in_thread` -/

/-- `worker._MAX_PENDING`: bound on outstanding background tasks. -/
def MAX_PENDING : Nat := 128

/-- Errors delivered to a submission's `on_error` callback: the typed
queue-full condition (`worker.TaskQueueFull`) is a distinct constructor
from a runtime error raised by the task or by the executor. -/
inductive TaskErr where
  | taskQueueFull
  | runtimeErr
  deriving DecidableEq, Repr

/-- Observable outcome of one full `run_in_thread` submission lifecycle. -/
structure RunResult where
  fnRan : Bool
  onDoneRan : Bool
  onErrorArg : Option TaskErr
  pendingAfterAcquire : Nat
  pendingFinal : Nat
  deriving DecidableEq, Repr

/-- `worker.run_in_thread` (src/docker_monitor/utils/worker.py:49-103) as a
function of the pending-permit count when the submission is made. A
non-blocking acquire succeeds exactly when the count is below
`MAX_PENDING`; a blocking acquire suspends until that holds, so the
modelled count at acquire time is below the bound in that mode too (the
bound itself is the subject of the trace system `wstep` below). On the
rejection path the function is not run and `on_error` receives
`TaskQueueFull`; on the acquired paths the permit is released in `finally`
after the task (success or failure) or immediately when `_executor.submit`
itself raises. -/
def run_in_thread (submitOk : Bool) (fnResult : Except TaskErr Unit) (pending : Nat) :
    RunResult :=
  if _h : pending < MAX_PENDING then
    if submitOk then
      match fnResult with
      | .ok _ =>
        { fnRan := true, onDoneRan := true, onErrorArg := none,
          pendingAfterAcquire := pending + 1, pendingFinal := pending }
      | .error e =>
        { fnRan := true, onDoneRan := false, onErrorArg := some e,
          pendingAfterAcquire := pending + 1, pendingFinal := pending }
    else
      { fnRan := false, onDoneRan := false, onErrorArg := some .runtimeErr,
        pendingAfterAcquire := pending + 1, pendingFinal := pending }
  else
    { fnRan := false, onDoneRan := false, onErrorArg := some .taskQueueFull,
      pendingAfterAcquire := pending, pendingFinal := pending }

/-- Concurrency events acting on the shared pending-permit count: a
successful acquire (blocking or not — the `BoundedSemaphore` admits it only
below the bound), a non-blocking rejection at the bound, and a release (on
task completion, task failure, or submission failure). -/
inductive WEv where
  | acquire
  | rejectNB
  | release
  deriving DecidableEq, Repr

/-- One transition of the pending-count system; `none` marks an event that
cannot occur in the given state. -/
def wstep (pending : Nat) : WEv → Option Nat
  | .acquire => if pending < MAX_PENDING then some (pending + 1) else none
  | .rejectNB => if MAX_PENDING ≤ pending then some pending else none
  | .release => if 0 < pending then some (pending - 1) else none

/-- Run a trace of events from a given pending count. -/
def wrun (pending : Nat) : List WEv → Option Nat
  | [] => some pending
  | e :: rest =>
    match wstep pending e with
    | some p => wrun p rest
    | none => none

/-- Any state reached by a trace from a bounded state is bounded. -/
theorem wrun_le_max : ∀ (evs : List WEv) (q p : Nat), q ≤ MAX_PENDING →
    wrun q evs = some p → p ≤ MAX_PENDING := by
  intro evs
  induction evs with
  | nil => intro q p hq h; rw [wrun] at h; exact Option.some_inj.1 h ▸ hq
  | cons e rest ih =>
    intro q p hq h
    rw [wrun] at h
    cases e with
    | acquire =>
      by_cases hlt : q < MAX_PENDING
      · rw [wstep, if_pos hlt] at h
        exact ih (q + 1) p hlt h
      · rw [wstep, if_neg hlt] at h
        exact Option.noConfusion h
    | rejectNB =>
      by_cases hge : MAX_PENDING ≤ q
      · rw [wstep, if_pos hge] at h
        exact ih q p hq h
      · rw [wstep, if_neg hge] at h
        exact Option.noConfusion h
    | release =>
      by_cases hpos : 0 < q
      · rw [wstep, if_pos hpos] at h
        exact ih (q - 1) p (le_trans (Nat.sub_le q 1) hq) h
      · rw [wstep, if_neg hpos] at h
        exact Option.noConfusion h

/-- C4: (i) along every event trace starting from an idle runner the
pending-permit count stays within `[0, MAX_PENDING]` (it is a `Nat`, so
the lower bound is inherent); (ii) a non-blocking submission made while
`MAX_PENDING` tasks are outstanding does not run the submitted function
and delivers the typed `TaskQueueFull` error — a constructor distinct from
a runtime error — to `on_error`; (iii) on every exit path of an admitted
submission (task success, task failure, or executor-submission failure)
the acquired permit is released, leaving the count where it started. -/
theorem run_in_thread_bounded (evs : List WEv) (p : Nat)
    (htrace : wrun 0 evs = some p)
    (submitOk : Bool) (fnResult : Except TaskErr Unit) (pending : Nat) :
    p ≤ MAX_PENDING
    ∧ (run_in_thread submitOk fnResult MAX_PENDING).fnRan = false
    ∧ (run_in_thread submitOk fnResult MAX_PENDING).onErrorArg = some TaskErr.taskQueueFull
    ∧ TaskErr.taskQueueFull ≠ TaskErr.runtimeErr
    ∧ (run_in_thread submitOk fnResult pending).pendingFinal = pending := by
  refine ⟨wrun_le_max evs 0 p (Nat.zero_le _) htrace, ?_, ?_, by decide, ?_⟩
  · simp [run_in_thread]
  · simp [run_in_thread]
  · by_cases h : pending < MAX_PENDING
    · simp only [run_in_thread, dif_pos h]
      cases submitOk
      · rfl
      · cases fnResult with
        | ok u => rfl
        | error e => rfl
    · simp only [run_in_thread, dif_neg h]

/-- C4 witness: a submit/complete/submit-reject trace of length three
reaching count `MAX_PENDING` never, plus concrete branch outcomes. -/
theorem run_in_thread_bounded_witness :
    (1 : Nat) ≤ MAX_PENDING
    ∧ (run_in_thread true (Except.ok ()) MAX_PENDING).fnRan = false
    ∧ (run_in_thread true (Except.ok ()) MAX_PENDING).onErrorArg = some TaskErr.taskQueueFull
    ∧ TaskErr.taskQueueFull ≠ TaskErr.runtimeErr
    ∧ (run_in_thread true (Except.ok ()) 3).pendingFinal = 3 :=
  run_in_thread_bounded [WEv.acquire] 1 (by decide) true (Except.ok ()) 3

/-! ## Data controller: value-level model (update/get/batch) -/

/-- An argument handed to a controller update method: Python `None`, a
non-list value (tagged with a description of its type), or a list of
payload dicts. -/
inductive CtrlArg where
  | pynone
  | nonList (tag : String)
  | list (xs : List PyVal)

/-- The controller's per-resource caches
(src/docker_monitor/utils/docker_controller.py:52-55). Each cache holds
the latest full list snapshot for its resource type. -/
structure CtrlState where
  containers_cache : List PyVal
  networks_cache : List PyVal
  images_cache : List PyVal
  volumes_cache : List PyVal
  deriving Repr

/-- Payload of a notification. -/
inductive NotifData where
  | list (xs : List PyVal)
  | batch (containers networks images volumes : Option (List PyVal))

/-- A notification handed to `notifyObservers`: event type plus payload. -/
structure Notification where
  event_type : String
  payload : NotifData

/-- `DockerDataController.update_containers`
(src/docker_monitor/utils/docker_controller.py:67-86): `None` and non-list
arguments are logged and ignored; a list replaces the containers cache and
observers are notified once with event type `containers_updated` and the
new list as payload. -/
def update_containers (s : CtrlState) (arg : CtrlArg) : CtrlState × List Notification :=
  match arg with
  | .pynone => (s, [])
  | .nonList _ => (s, [])
  | .list xs =>
    ({ s with containers_cache := xs },
     [{ event_type := "containers_updated", payload := .list xs }])

/-- `DockerDataController.get_containers`
(src/docker_monitor/utils/docker_controller.py:88-96): the cached list's
value (the source returns `self._containers_cache.copy()`; the copy's
aliasing behaviour is modelled separately on an explicit heap below). -/
def get_containers (s : CtrlState) : List PyVal :=
  s.containers_cache

/-- C6: `update_containers(None)` and `update_containers(non-list)` are
no-ops — the caches are untouched, a subsequent `get_containers()` returns
the same value as before, and no notification is emitted — while
`update_containers(L)` replaces the containers cache with `L`, leaves the
other caches untouched, and emits exactly the notification
`containers_updated` carrying `L`. -/
theorem update_containers_rejects_misuse (s : CtrlState) (tag : String) (xs : List PyVal) :
    update_containers s .pynone = (s, [])
    ∧ update_containers s (.nonList tag) = (s, [])
    ∧ get_containers (update_containers s .pynone).1 = get_containers s
    ∧ (update_containers s (.list xs)).1.containers_cache = xs
    ∧ (update_containers s (.list xs)).1.networks_cache = s.networks_cache
    ∧ (update_containers s (.list xs)).1.images_cache = s.images_cache
    ∧ (update_containers s (.list xs)).1.volumes_cache = s.volumes_cache
    ∧ (update_containers s (.list xs)).2.map Notification.event_type = ["containers_updated"]
    ∧ (update_containers s (.list xs)).2
        = [{ event_type := "containers_updated", payload := NotifData.list xs }]
    ∧ ∀ n ∈ (update_containers s (.list xs)).2,
        n.event_type = "containers_updated" := by
  refine ⟨rfl, rfl, rfl, rfl, rfl, rfl, rfl, rfl, rfl, ?_⟩
  intro n hn
  simp only [update_containers, List.mem_singleton] at hn
  rw [hn]

/-- `DockerDataController.update_all_resources`
(src/docker_monitor/utils/docker_controller.py:325-376): each non-`None`
argument replaces its resource cache and contributes to `updated_types`;
when at least one type was updated, a single `batch_updated` notification
carrying all four arguments is emitted, otherwise none. -/
def update_all_resources (s : CtrlState)
    (containers networks images volumes : Option (List PyVal)) :
    CtrlState × List Notification :=
  let updated_types : List String := []
  let sc := match containers with
    | some xs => { s with containers_cache := xs }
    | none => s
  let typesC := match containers with
    | some xs => updated_types ++ [toString xs.length ++ " containers"]
    | none => updated_types
  let sn := match networks with
    | some xs => { sc with networks_cache := xs }
    | none => sc
  let typesN := match networks with
    | some xs => typesC ++ [toString xs.length ++ " networks"]
    | none => typesC
  let si := match images with
    | some xs => { sn with images_cache := xs }
    | none => sn
  let typesI := match images with
    | some xs => typesN ++ [toString xs.length ++ " images"]
    | none => typesN
  let sv := match volumes with
    | some xs => { si with volumes_cache := xs }
    | none => si
  let typesV := match volumes with
    | some xs => typesI ++ [toString xs.length ++ " volumes"]
    | none => typesI
  if typesV.isEmpty then (sv, [])
  else
    (sv, [{ event_type := "batch_updated",
            payload := .batch containers networks images volumes }])

/-- C10: calling the batch update with all four arguments `None` leaves
every cache unchanged and emits no notification at all; when at least one
argument is a list, exactly one notification is emitted and its event type
is `batch_updated`. -/
theorem update_all_resources_notification (s : CtrlState)
    (containers networks images volumes : Option (List PyVal))
    (hsome : containers.isSome ∨ networks.isSome ∨ images.isSome ∨ volumes.isSome) :
    update_all_resources s none none none none = (s, [])
    ∧ (update_all_resources s containers networks images volumes).2.length = 1
    ∧ ∀ n ∈ (update_all_resources s containers networks images volumes).2,
        n.event_type = "batch_updated" := by
  refine ⟨rfl, ?_, ?_⟩
  · rcases containers with _ | cs <;> rcases networks with _ | ns <;>
      rcases images with _ | is_ <;> rcases volumes with _ | vs <;>
      simp [update_all_resources] <;> simp at hsome
  · intro n hn
    rcases containers with _ | cs <;> rcases networks with _ | ns <;>
      rcases images with _ | is_ <;> rcases volumes with _ | vs <;>
      simp [update_all_resources] at hn <;> rw [hn]

/-- C10 witness: an update carrying only a containers list. -/
theorem update_all_resources_notification_witness :
    update_all_resources
        { containers_cache := [], networks_cache := [], images_cache := [], volumes_cache := [] }
        none none none none
      = ({ containers_cache := [], networks_cache := [], images_cache := [],
           volumes_cache := [] }, [])
    ∧ (update_all_resources
        { containers_cache := [], networks_cache := [], images_cache := [], volumes_cache := [] }
        (some [PyVal.pynone]) none none none).2.length = 1
    ∧ ∀ n ∈ (update_all_resources
        { containers_cache := [], networks_cache := [], images_cache := [], volumes_cache := [] }
        (some [PyVal.pynone]) none none none).2,
        n.event_type = "batch_updated" :=
  update_all_resources_notification
    { containers_cache := [], networks_cache := [], images_cache := [], volumes_cache := [] }
    (some [PyVal.pynone]) none none none (Or.inl rfl)

/-! ## Data controller: reference-level model for the defensive copy -/

/-- A Python object reference (index into the heap of list objects). -/
abbrev Ref := Nat

/-- The heap of allocated Python list objects relevant to the containers
cache: each cell is one list object's contents. -/
structure Heap where
  cells : List (List PyVal)

/-- Dereference: the contents of the list object behind `r`. -/
def Heap.read (h : Heap) (r : Ref) : List PyVal :=
  (h.cells.get? r).getD []

/-- Allocate a fresh list object with the given contents (what Python's
`list.copy()` does) and return its reference. -/
def Heap.alloc (h : Heap) (xs : List PyVal) : Heap × Ref :=
  ({ cells := h.cells ++ [xs] }, h.cells.length)

/-- In-place mutation of the list object behind `r` (e.g. `lst.append`,
`lst[i] = v`, `lst.clear()` — any caller-side mutation of the returned
list). -/
def Heap.write (h : Heap) (r : Ref) (xs : List PyVal) : Heap :=
  { cells := h.cells.set r xs }

/-- `update_containers` at the reference level: the source stores the very
reference it was handed (`self._containers_cache = containers_data`,
src/docker_monitor/utils/docker_controller.py:82-83) — no copy on update. -/
def update_containers_ref (containers_data : Ref) : Ref :=
  containers_data

/-- `get_containers` at the reference level
(src/docker_monitor/utils/docker_controller.py:88-96): returns
`self._containers_cache.copy()`, i.e. a freshly allocated list object with
equal contents. -/
def get_containers_ref (h : Heap) (cache : Ref) : Heap × Ref :=
  h.alloc (h.read cache)

theorem Heap.read_alloc (h : Heap) (xs : List PyVal) :
    ((h.alloc xs).1).read (h.alloc xs).2 = xs := by
  simp [Heap.alloc, Heap.read, List.getElem?_concat_length]

theorem Heap.read_alloc_old (h : Heap) (xs : List PyVal) (r : Ref)
    (hr : r < h.cells.length) : ((h.alloc xs).1).read r = h.read r := by
  simp [Heap.alloc, Heap.read, List.getElem?_append_left hr]

theorem Heap.read_write_ne (h : Heap) (r r2 : Ref) (xs : List PyVal) (hne : r2 ≠ r) :
    (h.write r xs).read r2 = h.read r2 := by
  simp [Heap.write, Heap.read, List.getElem?_set_ne (fun hc => hne hc.symm)]

/-- C7: after `update_containers(L)` (where the caller's argument is a
valid reference whose object holds `L`), `get_containers()` returns a
reference to a list equal to `L` but distinct from the caller's reference,
and mutating the returned copy in place leaves the cache untouched: a
second `get_containers()` still returns contents equal to `L`. -/
theorem get_containers_defensive_copy (h : Heap) (L : List PyVal) (callerRef : Ref)
    (hv : callerRef < h.cells.length) (hL : h.read callerRef = L) (mutv : List PyVal) :
    (get_containers_ref h (update_containers_ref callerRef)).1.read
        (get_containers_ref h (update_containers_ref callerRef)).2 = L
    ∧ (get_containers_ref h (update_containers_ref callerRef)).2 ≠ callerRef
    ∧ (((get_containers_ref h (update_containers_ref callerRef)).1.write
          (get_containers_ref h (update_containers_ref callerRef)).2 mutv).read
        (update_containers_ref callerRef)) = L
    ∧ ((((get_containers_ref h (update_containers_ref callerRef)).1.write
          (get_containers_ref h (update_containers_ref callerRef)).2 mutv).alloc
          (((get_containers_ref h (update_containers_ref callerRef)).1.write
            (get_containers_ref h (update_containers_ref callerRef)).2 mutv).read
            (update_containers_ref callerRef))).1.read
        (((get_containers_ref h (update_containers_ref callerRef)).1.write
          (get_containers_ref h (update_containers_ref callerRef)).2 mutv).alloc
          (((get_containers_ref h (update_containers_ref callerRef)).1.write
            (get_containers_ref h (update_containers_ref callerRef)).2 mutv).read
            (update_containers_ref callerRef))).2) = L := by
  have h1 : (get_containers_ref h (update_containers_ref callerRef)).1.read
      (get_containers_ref h (update_containers_ref callerRef)).2 = L := by
    rw [update_containers_ref, get_containers_ref, hL]
    exact Heap.read_alloc h L
  have hne : (get_containers_ref h (update_containers_ref callerRef)).2 ≠ callerRef := by
    rw [update_containers_ref, get_containers_ref, Heap.alloc]
    exact fun hc => absurd (hc ▸ hv) (lt_irrefl _)
  have h3 : (((get_containers_ref h (update_containers_ref callerRef)).1.write
      (get_containers_ref h (update_containers_ref callerRef)).2 mutv).read
      (update_containers_ref callerRef)) = L := by
    rw [update_containers_ref] at hne ⊢
    rw [Heap.read_write_ne _ _ _ _ (fun hc => hne hc.symm)]
    rw [get_containers_ref]
    rw [Heap.read_alloc_old h _ callerRef hv]
    exact hL
  exact ⟨h1, hne, h3, by rw [Heap.read_alloc, h3]⟩

/-- C7 witness: a one-object heap holding `[None]`, mutated to `[]` through
the returned copy. -/
theorem get_containers_defensive_copy_witness :
    (get_containers_ref { cells := [[PyVal.pynone]] } (update_containers_ref 0)).1.read
        (get_containers_ref { cells := [[PyVal.pynone]] } (update_containers_ref 0)).2
        = [PyVal.pynone]
    ∧ (get_containers_ref { cells := [[PyVal.pynone]] } (update_containers_ref 0)).2 ≠ 0
    ∧ (((get_containers_ref { cells := [[PyVal.pynone]] } (update_containers_ref 0)).1.write
          (get_containers_ref { cells := [[PyVal.pynone]] } (update_containers_ref 0)).2 []).read
        (update_containers_ref 0)) = [PyVal.pynone]
    ∧ ((((get_containers_ref { cells := [[PyVal.pynone]] } (update_containers_ref 0)).1.write
          (get_containers_ref { cells := [[PyVal.pynone]] } (update_containers_ref 0)).2 []).alloc
          (((get_containers_ref { cells := [[PyVal.pynone]] } (update_containers_ref 0)).1.write
            (get_containers_ref { cells := [[PyVal.pynone]] } (update_containers_ref 0)).2 []).read
            (update_containers_ref 0))).1.read
        (((get_containers_ref { cells := [[PyVal.pynone]] } (update_containers_ref 0)).1.write
          (get_containers_ref { cells := [[PyVal.pynone]] } (update_containers_ref 0)).2 []).alloc
          (((get_containers_ref { cells := [[PyVal.pynone]] } (update_containers_ref 0)).1.write
            (get_containers_ref { cells := [[PyVal.pynone]] } (update_containers_ref 0)).2 []).read
            (update_containers_ref 0))).2) = [PyVal.pynone] :=
  get_containers_defensive_copy { cells := [[PyVal.pynone]] } [PyVal.pynone] 0
    (by decide) rfl []


/-! ## Event listener: filtering and debounce -/

/-- Name prefix marking app-owned containers
(src/docker_monitor/utils/docker_utils.py:28). -/
def APP_CONTAINER_NAME_PREFIX : String := "dmm-"

/-- Creation label value marking app-created containers
(src/docker_monitor/utils/docker_utils.py:29). -/
def APP_CREATED_BY_LABEL : String := "docker-monitor-manager"

/-- Container lifecycle actions the listener reacts to
(src/docker_monitor/utils/docker_utils.py:442). -/
def relevant_events : List String :=
  ["create", "start", "stop", "die", "destroy", "pause", "unpause", "kill", "restart"]

/-- Minimum interval between refreshes, in seconds
(src/docker_monitor/utils/docker_utils.py:446). -/
def MIN_REFRESH_INTERVAL : ℚ := 1 / 2

/-- One decoded docker event as the listener reads it: `Type`, `Action`,
the actor's `name` attribute, its `dmm.created_by` attribute when present,
and the wall-clock instant `time.time()` at which the listener processes
it. -/
structure DockerEvent where
  etype : String
  action : String
  name : String
  created_by : Option String
  time : ℚ
  deriving Repr

/-- What the listener does with one event: whether it was forwarded to
observers as a raw `docker_event` notification
(`controller.notify_docker_event`), and whether it triggered a data
refresh (the `_fetch_and_notify` submission). -/
structure EventOutcome where
  forwarded : Bool
  refreshed : Bool
  deriving DecidableEq, Repr

/-- One iteration of the event loop of `docker_events_listener`
(src/docker_monitor/utils/docker_utils.py:448-533), as a function of the
debounce state `last_refresh_time`: non-container or irrelevant-action
events are skipped; non-app-owned events are skipped; qualifying events
are always forwarded via `notify_docker_event`, and trigger a refresh
(updating `last_refresh_time`) only when at least `MIN_REFRESH_INTERVAL`
has elapsed since the last triggered refresh. -/
def process_event (last_refresh_time : ℚ) (e : DockerEvent) : ℚ × EventOutcome :=
  if e.etype ≠ "container" ∨ ¬ relevant_events.contains e.action then
    (last_refresh_time, { forwarded := false, refreshed := false })
  else if ¬ (e.created_by = some APP_CREATED_BY_LABEL
      ∨ e.name.startsWith APP_CONTAINER_NAME_PREFIX) then
    (last_refresh_time, { forwarded := false, refreshed := false })
  else if e.time - last_refresh_time < MIN_REFRESH_INTERVAL then
    (last_refresh_time, { forwarded := true, refreshed := false })
  else
    (e.time, { forwarded := true, refreshed := true })

/-- Process a stream of events in order, collecting each event's outcome. -/
def process_events (last_refresh_time : ℚ) : List DockerEvent → ℚ × List EventOutcome
  | [] => (last_refresh_time, [])
  | e :: rest =>
    let p := process_event last_refresh_time e
    let r := process_events p.1 rest
    (r.1, p.2 :: r.2)

/-- Does an event qualify (container type, relevant action, app-owned)? -/
def qualifying (e : DockerEvent) : Prop :=
  e.etype = "container" ∧ relevant_events.contains e.action = true
    ∧ (e.created_by = some APP_CREATED_BY_LABEL
        ∨ e.name.startsWith APP_CONTAINER_NAME_PREFIX = true)

instance (e : DockerEvent) : Decidable (qualifying e) := by
  unfold qualifying; infer_instance

/-- A qualifying event due for a refresh triggers it and stamps the state. -/
theorem process_event_due (last : ℚ) (e : DockerEvent) (hq : qualifying e)
    (hdue : MIN_REFRESH_INTERVAL ≤ e.time - last) :
    process_event last e = (e.time, { forwarded := true, refreshed := true }) := by
  obtain ⟨h1, h2, h3⟩ := hq
  rw [process_event]
  rw [if_neg (show ¬(e.etype ≠ "container" ∨ ¬ relevant_events.contains e.action) by
    push_neg
    exact ⟨h1, by simpa using h2⟩)]
  rw [if_neg (not_not_intro h3), if_neg (not_lt.2 hdue)]

/-- A qualifying event inside the debounce window is forwarded but does
not refresh, and leaves the debounce state unchanged. -/
theorem process_event_debounced (last : ℚ) (e : DockerEvent) (hq : qualifying e)
    (hin : e.time - last < MIN_REFRESH_INTERVAL) :
    process_event last e = (last, { forwarded := true, refreshed := false }) := by
  obtain ⟨h1, h2, h3⟩ := hq
  rw [process_event]
  rw [if_neg (show ¬(e.etype ≠ "container" ∨ ¬ relevant_events.contains e.action) by
    push_neg
    exact ⟨h1, by simpa using h2⟩)]
  rw [if_neg (not_not_intro h3), if_pos hin]

/-- C8: for two qualifying app-owned container events where the first
triggers a refresh and the second arrives less than `MIN_REFRESH_INTERVAL`
(500 ms) after it, the pass over both events triggers exactly one data
refresh; both events are still forwarded to observers as raw
`docker_event` notifications, and the second does not trigger a refresh. -/
theorem debounce_single_refresh (last0 : ℚ) (e1 e2 : DockerEvent)
    (hq1 : qualifying e1) (hq2 : qualifying e2)
    (hdue : MIN_REFRESH_INTERVAL ≤ e1.time - last0)
    (hwin : e2.time - e1.time < MIN_REFRESH_INTERVAL) :
    (process_events last0 [e1, e2]).2
        = [{ forwarded := true, refreshed := true },
           { forwarded := true, refreshed := false }]
    ∧ ((process_events last0 [e1, e2]).2.filter (fun o => o.refreshed)).length = 1 := by
  have s1 := process_event_due last0 e1 hq1 hdue
  have s2 := process_event_debounced e1.time e2 hq2 hwin
  have hall : process_events last0 [e1, e2]
      = (e1.time, [{ forwarded := true, refreshed := true },
                   { forwarded := true, refreshed := false }]) := by
    simp only [process_events, s1, s2]
  rw [hall]
  exact ⟨rfl, rfl⟩

/-- C8 witness: two `start` events on app-owned container `dmm-web`,
100 ms apart, after an idle period. -/
theorem debounce_single_refresh_witness :
    (process_events 0
        [{ etype := "container", action := "start", name := "dmm-web",
           created_by := some "docker-monitor-manager", time := 10 },
         { etype := "container", action := "start", name := "dmm-web",
           created_by := some "docker-monitor-manager", time := 10 + 1 / 10 }]).2
      = [{ forwarded := true, refreshed := true },
         { forwarded := true, refreshed := false }]
    ∧ ((process_events 0
        [{ etype := "container", action := "start", name := "dmm-web",
           created_by := some "docker-monitor-manager", time := 10 },
         { etype := "container", action := "start", name := "dmm-web",
           created_by := some "docker-monitor-manager", time := 10 + 1 / 10 }]).2.filter
        (fun o => o.refreshed)).length = 1 :=
  debounce_single_refresh 0
    { etype := "container", action := "start", name := "dmm-web",
      created_by := some "docker-monitor-manager", time := 10 }
    { etype := "container", action := "start", name := "dmm-web",
      created_by := some "docker-monitor-manager", time := 10 + 1 / 10 }
    (by decide) (by decide)
    (by norm_num [MIN_REFRESH_INTERVAL])
    (by norm_num [MIN_REFRESH_INTERVAL])
